import Mathlib

/-!
Verification of the wplace-clone spatial grid engine and real-time
synchronization layer.  The definitions below are shallow embeddings of the
TypeScript source: `PixelGrid` embeds `src/lib/pixelGridSystem.ts` together
with its configuration `src/lib/gridConfig.ts`; `GridSystem` embeds the
variant `src/lib/gridSystem.ts`; `Service` embeds `src/lib/pixelService.ts`;
`RouteApi` embeds `src/app/api/pixels/route.ts`; `Ws` embeds
`server/websocketServer.ts`.  JavaScript numbers are modelled as exact
rationals, JavaScript integers as `Int`, and the fallible external store as
explicit state passing with a boolean commit outcome.
-/

namespace Wplace

namespace PixelGrid

/-- GRID_CONFIG.PIXEL_SIZE_DEGREES = 0.0001 (gridConfig.ts). -/
def PIXEL_SIZE_DEGREES : ℚ := 1 / 10000

/-- GRID_CONFIG.WORLD_BOUNDS.MIN_LAT = -85.0511. -/
def MIN_LAT : ℚ := -(850511 / 10000)

/-- GRID_CONFIG.WORLD_BOUNDS.MAX_LAT = 85.0511. -/
def MAX_LAT : ℚ := 850511 / 10000

/-- GRID_CONFIG.WORLD_BOUNDS.MIN_LNG = -180. -/
def MIN_LNG : ℚ := -180

/-- GRID_CONFIG.WORLD_BOUNDS.MAX_LNG = 180. -/
def MAX_LNG : ℚ := 180

/-- GRID_CONFIG.CHUNK_SIZE = 64. -/
def CHUNK_SIZE : ℤ := 64

/-- GRID_CONFIG.ZOOM.MIN_VISIBLE = 14. -/
def ZOOM_MIN_VISIBLE : ℤ := 14

/-- GRID_CONFIG.MAX_PIXELS_PER_REQUEST = 4096. -/
def MAX_PIXELS_PER_REQUEST : ℤ := 4096

/-- Math.sqrt(GRID_CONFIG.MAX_PIXELS_PER_REQUEST): 4096 is a perfect square,
so the square root is exactly 64. -/
def maxPixelsPerSide : ℤ := 64

/-- Interface GridCoordinates of pixelGridSystem.ts. -/
structure GridCoordinates where
  gridX : ℤ
  gridY : ℤ
deriving DecidableEq, Repr

/-- Interface GeoCoordinates of pixelGridSystem.ts. -/
structure GeoCoordinates where
  lat : ℚ
  lng : ℚ
deriving DecidableEq, Repr

/-- Interface ChunkCoordinates of pixelGridSystem.ts. -/
structure ChunkCoordinates where
  chunkX : ℤ
  chunkY : ℤ
deriving DecidableEq, Repr

/-- Interface Bounds of pixelGridSystem.ts. -/
structure Bounds where
  north : ℚ
  south : ℚ
  east : ℚ
  west : ℚ
deriving DecidableEq, Repr

/-- geoToGrid of pixelGridSystem.ts: clamp into world bounds, then floor
divide by the pixel size. -/
def geoToGrid (lat lng : ℚ) : GridCoordinates :=
  let clampedLat := max MIN_LAT (min MAX_LAT lat)
  let clampedLng := max MIN_LNG (min MAX_LNG lng)
  { gridX := ⌊(clampedLng - MIN_LNG) / PIXEL_SIZE_DEGREES⌋
    gridY := ⌊(MAX_LAT - clampedLat) / PIXEL_SIZE_DEGREES⌋ }

/-- gridToGeo of pixelGridSystem.ts: center of the cell. -/
def gridToGeo (gridX gridY : ℤ) : GeoCoordinates :=
  { lng := MIN_LNG + ((gridX : ℚ) + 1/2) * PIXEL_SIZE_DEGREES
    lat := MAX_LAT - ((gridY : ℚ) + 1/2) * PIXEL_SIZE_DEGREES }

/-- getPixelBounds of pixelGridSystem.ts: exact rectangle edges of a cell. -/
def getPixelBounds (gridX gridY : ℤ) : Bounds :=
  let west := MIN_LNG + (gridX : ℚ) * PIXEL_SIZE_DEGREES
  let north := MAX_LAT - (gridY : ℚ) * PIXEL_SIZE_DEGREES
  { west := west
    east := west + PIXEL_SIZE_DEGREES
    north := north
    south := north - PIXEL_SIZE_DEGREES }

/-- Result record of snapToGrid (GeoCoordinates and GridCoordinates merged). -/
structure SnappedPoint where
  lat : ℚ
  lng : ℚ
  gridX : ℤ
  gridY : ℤ
deriving DecidableEq, Repr

/-- snapToGrid of pixelGridSystem.ts: gridToGeo composed with geoToGrid. -/
def snapToGrid (lat lng : ℚ) : SnappedPoint :=
  let grid := geoToGrid lat lng
  let geo := gridToGeo grid.gridX grid.gridY
  { lat := geo.lat, lng := geo.lng, gridX := grid.gridX, gridY := grid.gridY }

/-- gridToChunk of pixelGridSystem.ts; Math.floor of a division of integers
is integer floor division. -/
def gridToChunk (gridX gridY : ℤ) : ChunkCoordinates :=
  { chunkX := Int.fdiv gridX CHUNK_SIZE, chunkY := Int.fdiv gridY CHUNK_SIZE }

/-- getVisibleChunks of pixelGridSystem.ts.  Note: it takes no zoom
parameter and applies no zoom threshold. -/
def getVisibleChunks (bounds : Bounds) : List ChunkCoordinates :=
  let topLeft := geoToGrid bounds.north bounds.west
  let bottomRight := geoToGrid bounds.south bounds.east
  let topLeftChunk := gridToChunk topLeft.gridX topLeft.gridY
  let bottomRightChunk := gridToChunk bottomRight.gridX bottomRight.gridY
  (List.range (bottomRightChunk.chunkX - topLeftChunk.chunkX + 1).toNat).flatMap
    fun i : ℕ =>
      (List.range (bottomRightChunk.chunkY - topLeftChunk.chunkY + 1).toNat).map
        fun j : ℕ =>
          { chunkX := topLeftChunk.chunkX + (i : ℤ)
            chunkY := topLeftChunk.chunkY + (j : ℤ) : ChunkCoordinates }

/-- Maximum grid X index computed in isValidGridPosition. -/
def maxGridX : ℤ := ⌊(MAX_LNG - MIN_LNG) / PIXEL_SIZE_DEGREES⌋

/-- Maximum grid Y index computed in isValidGridPosition. -/
def maxGridY : ℤ := ⌊(MAX_LAT - MIN_LAT) / PIXEL_SIZE_DEGREES⌋

/-- isValidGridPosition of pixelGridSystem.ts. -/
def isValidGridPosition (gridX gridY : ℤ) : Bool :=
  0 ≤ gridX && gridX < maxGridX && 0 ≤ gridY && gridY < maxGridY

/-- getVisiblePixels of pixelGridSystem.ts: below the zoom threshold return
nothing; otherwise clamp each side of the rectangle to
maxPixelsPerSide = 64 cells and enumerate with x as the outer loop and y as
the inner loop, keeping only valid grid positions. -/
def getVisiblePixels (bounds : Bounds) (zoom : ℤ) : List GridCoordinates :=
  if zoom < ZOOM_MIN_VISIBLE then [] else
  let topLeft := geoToGrid bounds.north bounds.west
  let bottomRight := geoToGrid bounds.south bounds.east
  let pixelCountX := min (bottomRight.gridX - topLeft.gridX + 1) maxPixelsPerSide
  let pixelCountY := min (bottomRight.gridY - topLeft.gridY + 1) maxPixelsPerSide
  (List.range pixelCountX.toNat).flatMap fun i : ℕ =>
    (List.range pixelCountY.toNat).filterMap fun j : ℕ =>
      if isValidGridPosition (topLeft.gridX + (i : ℤ)) (topLeft.gridY + (j : ℤ)) then
        some { gridX := topLeft.gridX + (i : ℤ), gridY := topLeft.gridY + (j : ℤ) }
      else none

/-- getChunkId of pixelGridSystem.ts. -/
def getChunkId (chunkX chunkY : ℤ) : String :=
  "chunk_" ++ toString chunkX ++ "_" ++ toString chunkY

/-- COLOR_PALETTE.FREE of gridConfig.ts (24 colors). -/
def FREE_COLORS : List String :=
  ["#FFFFFF", "#E4E4E4", "#888888", "#222222",
   "#FF0000", "#FF8800", "#FFFF00", "#88FF00",
   "#00FF00", "#00FF88", "#00FFFF", "#0088FF",
   "#0000FF", "#8800FF", "#FF00FF", "#FF0088",
   "#8B4513", "#A0522D", "#D2691E", "#F4A460",
   "#FFB6C1", "#FFC0CB", "#FF69B4", "#FF1493"]

/-- COLOR_PALETTE.PREMIUM of gridConfig.ts (40 colors). -/
def PREMIUM_COLORS : List String :=
  ["#F0F8FF", "#FAEBD7", "#7FFFD4", "#F0FFFF", "#F5F5DC",
   "#FFE4C4", "#000000", "#0000CD", "#8A2BE2", "#A52A2A",
   "#DEB887", "#5F9EA0", "#7FFF00", "#D2691E", "#FF7F50",
   "#6495ED", "#DC143C", "#00FFFF", "#00008B", "#008B8B",
   "#B8860B", "#A9A9A9", "#006400", "#BDB76B", "#8B008B",
   "#556B2F", "#FF8C00", "#9932CC", "#8B0000", "#E9967A",
   "#8FBC8F", "#483D8B", "#2F4F4F", "#00CED1", "#9400D3",
   "#FF1493", "#00BFFF", "#696969", "#1E90FF", "#B22222"]

/-- isValidColor of gridConfig.ts: membership in the configured palette. -/
def isValidColor (hex : String) : Bool :=
  FREE_COLORS.contains hex || PREMIUM_COLORS.contains hex

/-- isFreeColor of gridConfig.ts. -/
def isFreeColor (hex : String) : Bool :=
  FREE_COLORS.contains hex

/-- validatePixelPlacement of pixelGridSystem.ts, on already well-typed
input: position bound check, color check (empty string is falsy in JS),
user id check; returns the error message of the first failing check. -/
def validatePixelPlacement (gridX gridY : ℤ) (color : String) (userId : ℤ) :
    Option String :=
  if !isValidGridPosition gridX gridY then some "Position de grille hors limites"
  else if color = "" || !isValidColor color then some "Couleur invalide"
  else if userId ≤ 0 then some "Utilisateur invalide"
  else none

end PixelGrid

end Wplace

namespace Wplace

open PixelGrid

/-- The pixel size is positive. -/
lemma pixel_size_pos : (0 : ℚ) < PIXEL_SIZE_DEGREES := by
  norm_num [PIXEL_SIZE_DEGREES]

/-- maxGridX evaluates to 3600000. -/
lemma maxGridX_eq : maxGridX = 3600000 := by
  norm_num [maxGridX, MAX_LNG, MIN_LNG, PIXEL_SIZE_DEGREES]

/-- maxGridY evaluates to 1701022. -/
lemma maxGridY_eq : maxGridY = 1701022 := by
  norm_num [maxGridY, MAX_LAT, MIN_LAT, PIXEL_SIZE_DEGREES]

/-- Round trip through the cell center, including both world edges: for any
cell index pair with gridX between 0 and 3600000 and gridY between 0 and
1701022 (both inclusive: these are the values geoToGrid can produce),
geoToGrid of the cell center returns the same indices. -/
lemma geoToGrid_gridToGeo (gx gy : ℤ)
    (hx0 : 0 ≤ gx) (hx1 : gx ≤ 3600000) (hy0 : 0 ≤ gy) (hy1 : gy ≤ 1701022) :
    geoToGrid (gridToGeo gx gy).lat (gridToGeo gx gy).lng = ⟨gx, gy⟩ := by
  have hp : (0 : ℚ) < PIXEL_SIZE_DEGREES := pixel_size_pos
  simp only [geoToGrid, gridToGeo, GridCoordinates.mk.injEq]
  constructor
  · -- gridX component
    rcases eq_or_lt_of_le hx1 with heq | hlt
    · -- edge case gx = 3600000: longitude 180.00005 is clamped to 180
      subst heq
      norm_num [MIN_LNG, MAX_LNG, MAX_LAT, MIN_LAT, PIXEL_SIZE_DEGREES]
    · -- interior: no clamping, floor (gx + 1/2) = gx
      have hlng_le : MIN_LNG + ((gx : ℚ) + 1/2) * PIXEL_SIZE_DEGREES ≤ MAX_LNG := by
        have : (gx : ℚ) ≤ 3599999 := by exact_mod_cast Int.lt_add_one_iff.mp hlt
        norm_num [MIN_LNG, MAX_LNG, PIXEL_SIZE_DEGREES]
        linarith
      have hlng_ge : MIN_LNG ≤ MIN_LNG + ((gx : ℚ) + 1/2) * PIXEL_SIZE_DEGREES := by
        have : (0 : ℚ) ≤ (gx : ℚ) := by exact_mod_cast hx0
        norm_num [MIN_LNG, PIXEL_SIZE_DEGREES]
        linarith
      rw [min_eq_right hlng_le, max_eq_right hlng_ge]
      have harith :
          (MIN_LNG + ((gx : ℚ) + 1/2) * PIXEL_SIZE_DEGREES - MIN_LNG) /
            PIXEL_SIZE_DEGREES = (gx : ℚ) + 1/2 := by
        field_simp
        ring
      rw [harith, Int.floor_eq_iff]
      constructor
      · linarith [le_refl (gx : ℚ)]
      · norm_num
  · -- gridY component
    rcases eq_or_lt_of_le hy1 with heq | hlt
    · -- edge case gy = 1701022: latitude -85.05115 is clamped to -85.0511
      subst heq
      norm_num [MIN_LNG, MAX_LNG, MAX_LAT, MIN_LAT, PIXEL_SIZE_DEGREES]
    · -- interior: no clamping, floor (gy + 1/2) = gy
      have hlat_le : MAX_LAT - ((gy : ℚ) + 1/2) * PIXEL_SIZE_DEGREES ≤ MAX_LAT := by
        have : (0 : ℚ) ≤ (gy : ℚ) := by exact_mod_cast hy0
        norm_num [MAX_LAT, PIXEL_SIZE_DEGREES]
        linarith
      have hlat_ge : MIN_LAT ≤ MAX_LAT - ((gy : ℚ) + 1/2) * PIXEL_SIZE_DEGREES := by
        have : (gy : ℚ) ≤ 1701021 := by exact_mod_cast Int.lt_add_one_iff.mp hlt
        norm_num [MIN_LAT, MAX_LAT, PIXEL_SIZE_DEGREES]
        linarith
      rw [min_eq_right hlat_le, max_eq_right hlat_ge]
      have harith :
          (MAX_LAT - (MAX_LAT - ((gy : ℚ) + 1/2) * PIXEL_SIZE_DEGREES)) /
            PIXEL_SIZE_DEGREES = (gy : ℚ) + 1/2 := by
        field_simp
        ring
      rw [harith, Int.floor_eq_iff]
      constructor
      · linarith [le_refl (gy : ℚ)]
      · norm_num

/-- The grid indices produced by geoToGrid always lie in the inclusive
ranges 0..3600000 and 0..1701022. -/
lemma geoToGrid_range (lat lng : ℚ) :
    0 ≤ (geoToGrid lat lng).gridX ∧ (geoToGrid lat lng).gridX ≤ 3600000 ∧
    0 ≤ (geoToGrid lat lng).gridY ∧ (geoToGrid lat lng).gridY ≤ 1701022 := by
  have hp := pixel_size_pos
  have hlngl : MIN_LNG ≤ max MIN_LNG (min MAX_LNG lng) := le_max_left _ _
  have hlngu : max MIN_LNG (min MAX_LNG lng) ≤ MAX_LNG :=
    max_le (by norm_num [MIN_LNG, MAX_LNG]) (min_le_left _ _)
  have hlatl : MIN_LAT ≤ max MIN_LAT (min MAX_LAT lat) := le_max_left _ _
  have hlatu : max MIN_LAT (min MAX_LAT lat) ≤ MAX_LAT :=
    max_le (by norm_num [MIN_LAT, MAX_LAT]) (min_le_left _ _)
  simp only [geoToGrid]
  refine ⟨?_, ?_, ?_, ?_⟩
  · apply Int.le_floor.mpr
    refine le_trans (by norm_num) (div_nonneg (by linarith) (le_of_lt hp))
  · have hle : (max MIN_LNG (min MAX_LNG lng) - MIN_LNG) / PIXEL_SIZE_DEGREES
        ≤ (3600000 : ℚ) := by
      rw [div_le_iff₀ hp]
      simp only [PIXEL_SIZE_DEGREES, MIN_LNG, MAX_LNG] at hlngu ⊢
      linarith
    calc ⌊(max MIN_LNG (min MAX_LNG lng) - MIN_LNG) / PIXEL_SIZE_DEGREES⌋
        ≤ ⌊(3600000 : ℚ)⌋ := Int.floor_mono hle
      _ = 3600000 := by norm_num
  · apply Int.le_floor.mpr
    refine le_trans (by norm_num) (div_nonneg (by linarith) (le_of_lt hp))
  · have hle : (MAX_LAT - max MIN_LAT (min MAX_LAT lat)) / PIXEL_SIZE_DEGREES
        ≤ (1701022 : ℚ) := by
      rw [div_le_iff₀ hp]
      simp only [PIXEL_SIZE_DEGREES, MIN_LAT, MAX_LAT] at hlatl ⊢
      linarith
    calc ⌊(MAX_LAT - max MIN_LAT (min MAX_LAT lat)) / PIXEL_SIZE_DEGREES⌋
        ≤ ⌊(1701022 : ℚ)⌋ := Int.floor_mono hle
      _ = 1701022 := by norm_num

end Wplace

namespace Wplace

open PixelGrid

/-- Unpacked form of isValidGridPosition. -/
lemma isValidGridPosition_iff (gx gy : ℤ) :
    isValidGridPosition gx gy = true ↔
      0 ≤ gx ∧ gx < 3600000 ∧ 0 ≤ gy ∧ gy < 1701022 := by
  simp [isValidGridPosition, maxGridX_eq, maxGridY_eq, and_assoc]

/-- C1: for every GridCell within world bounds, geoToGrid inverts gridToGeo
on the cell center; and for every in-bounds geographic point, snapToGrid is
idempotent and returns the point gridToGeo (geoToGrid lat lng). -/
theorem c1_roundtrip_snap_idempotent (gx gy : ℤ) (lat lng : ℚ)
    (hcell : isValidGridPosition gx gy = true)
    (_hlat : MIN_LAT ≤ lat ∧ lat ≤ MAX_LAT)
    (_hlng : MIN_LNG ≤ lng ∧ lng ≤ MAX_LNG) :
    geoToGrid (gridToGeo gx gy).lat (gridToGeo gx gy).lng = ⟨gx, gy⟩ ∧
    snapToGrid (snapToGrid lat lng).lat (snapToGrid lat lng).lng =
      snapToGrid lat lng ∧
    (snapToGrid lat lng).lat =
      (gridToGeo (geoToGrid lat lng).gridX (geoToGrid lat lng).gridY).lat ∧
    (snapToGrid lat lng).lng =
      (gridToGeo (geoToGrid lat lng).gridX (geoToGrid lat lng).gridY).lng := by
  obtain ⟨hx0, hx1, hy0, hy1⟩ := (isValidGridPosition_iff gx gy).mp hcell
  have hrange := geoToGrid_range lat lng
  have hround := geoToGrid_gridToGeo (geoToGrid lat lng).gridX
    (geoToGrid lat lng).gridY hrange.1 hrange.2.1 hrange.2.2.1 hrange.2.2.2
  refine ⟨?_, ?_, rfl, rfl⟩
  · exact geoToGrid_gridToGeo gx gy hx0 (le_of_lt hx1) hy0 (le_of_lt hy1)
  · simp only [snapToGrid, hround]

/-- Witness for C1 at the cell (0, 0) and the in-bounds point (0, 0). -/
theorem c1_roundtrip_snap_idempotent_witness :
    isValidGridPosition 0 0 = true ∧
    geoToGrid (gridToGeo 0 0).lat (gridToGeo 0 0).lng = ⟨0, 0⟩ ∧
    snapToGrid (snapToGrid 0 0).lat (snapToGrid 0 0).lng = snapToGrid 0 0 := by
  have hv : isValidGridPosition 0 0 = true :=
    (isValidGridPosition_iff 0 0).mpr (by norm_num)
  have h := c1_roundtrip_snap_idempotent 0 0 0 0 hv
    (by constructor <;> norm_num [MIN_LAT, MAX_LAT])
    (by constructor <;> norm_num [MIN_LNG, MAX_LNG])
  exact ⟨hv, h.1, h.2.1⟩

end Wplace

namespace Wplace

namespace GridSystem

/-- GRID_CONFIG.PIXEL_SIZE_DEGREES = 0.001 (gridSystem.ts variant). -/
def PIXEL_SIZE_DEGREES : ℚ := 1 / 1000

/-- GRID_CONFIG.BOUNDS of gridSystem.ts. -/
def MIN_LAT : ℚ := -85

/-- GRID_CONFIG.BOUNDS.MAX_LAT of gridSystem.ts. -/
def MAX_LAT : ℚ := 85

/-- GRID_CONFIG.BOUNDS.MIN_LNG of gridSystem.ts. -/
def MIN_LNG : ℚ := -180

/-- GRID_CONFIG.BOUNDS.MAX_LNG of gridSystem.ts. -/
def MAX_LNG : ℚ := 180

/-- GRID_CONFIG.MIN_ZOOM_VISIBLE = 12 (gridSystem.ts variant). -/
def MIN_ZOOM_VISIBLE : ℤ := 12

/-- GRID_CONFIG.CHUNK_SIZE = 100 (gridSystem.ts variant). -/
def CHUNK_SIZE : ℤ := 100

/-- geoToGrid of gridSystem.ts (returns fields named x, y). -/
def geoToGrid (lat lng : ℚ) : ℤ × ℤ :=
  let normalizedLat := max MIN_LAT (min MAX_LAT lat)
  let normalizedLng := max MIN_LNG (min MAX_LNG lng)
  (⌊(normalizedLng - MIN_LNG) / PIXEL_SIZE_DEGREES⌋,
   ⌊(MAX_LAT - normalizedLat) / PIXEL_SIZE_DEGREES⌋)

/-- getChunkCoords of gridSystem.ts. -/
def getChunkCoords (gridX gridY : ℤ) : ℤ × ℤ :=
  (Int.fdiv gridX CHUNK_SIZE, Int.fdiv gridY CHUNK_SIZE)

/-- Viewport bounds record of gridSystem.ts. -/
structure MapBounds where
  north : ℚ
  south : ℚ
  east : ℚ
  west : ℚ
deriving DecidableEq, Repr

/-- getVisibleChunks of gridSystem.ts: this variant takes the zoom level and
returns the empty list below MIN_ZOOM_VISIBLE. -/
def getVisibleChunks (mapBounds : MapBounds) (zoom : ℤ) : List (ℤ × ℤ) :=
  if zoom < MIN_ZOOM_VISIBLE then [] else
  let topLeft := geoToGrid mapBounds.north mapBounds.west
  let bottomRight := geoToGrid mapBounds.south mapBounds.east
  let topLeftChunk := getChunkCoords topLeft.1 topLeft.2
  let bottomRightChunk := getChunkCoords bottomRight.1 bottomRight.2
  (List.range (bottomRightChunk.1 - topLeftChunk.1 + 1).toNat).flatMap fun i : ℕ =>
    (List.range (bottomRightChunk.2 - topLeftChunk.2 + 1).toNat).map fun j : ℕ =>
      (topLeftChunk.1 + (i : ℤ), topLeftChunk.2 + (j : ℤ))

end GridSystem

namespace Service

/-- PixelService.isValidColor of pixelService.ts: a regular-expression test
that the string is a well-formed hex color, one hash sign followed by six
case-insensitive hex digits.  It does not consult the palette. -/
def isValidColorHex (color : String) : Bool :=
  match color.data with
  | '#' :: rest =>
      rest.length = 6 &&
      rest.all fun c =>
        ('0' ≤ c && c ≤ '9') || ('A' ≤ c && c ≤ 'F') || ('a' ≤ c && c ≤ 'f')
  | _ => false

/-- A stored pixel row of the pixels table (the fields placePixel writes). -/
structure PixelRow where
  gridX : ℤ
  gridY : ℤ
  color : String
  userId : ℤ
deriving DecidableEq, Repr

/-- State touched by PixelService.placePixel: the user's last_pixel_time
column, the Redis cooldown cache entry for the user, and the pixel rows. -/
structure SvcState where
  dbLast : Option ℤ
  cooldownCache : Option ℤ
  pixels : List PixelRow
deriving DecidableEq, Repr

/-- The last-placement timestamp the cooldown check observes: the cache
entry if present, otherwise the users-table column. -/
def cooldownTimestamp (st : SvcState) : Option ℤ :=
  match st.cooldownCache with
  | some t => some t
  | none => st.dbLast

/-- PixelService.checkUserCooldown: read the cache; on a miss read the users
table and fill the cache with the value read; a user with no recorded
placement is allowed; if the lookups throw, the catch block returns false.
Returns the decision together with the state (the cache may have been
filled with the old timestamp). -/
def checkUserCooldown (st : SvcState) (now : ℤ) (lookupFails : Bool) :
    Bool × SvcState :=
  if lookupFails then (false, st)
  else
    match st.cooldownCache with
    | some t => (decide (30000 ≤ now - t), st)
    | none =>
        match st.dbLast with
        | some t => (decide (30000 ≤ now - t), { st with cooldownCache := some t })
        | none => (true, st)

/-- ON CONFLICT (grid_x, grid_y) DO UPDATE of placePixel: replace the row at
the cell if present, else insert it. -/
def upsertPixel (pixels : List PixelRow) (row : PixelRow) : List PixelRow :=
  if pixels.any fun p => p.gridX = row.gridX && p.gridY = row.gridY then
    pixels.map fun p =>
      if p.gridX = row.gridX && p.gridY = row.gridY then row else p
  else pixels ++ [row]

/-- Result record of PixelService.placePixel. -/
structure SvcResult where
  success : Bool
  message : Option String
deriving DecidableEq, Repr

/-- PixelService.placePixel: convert to grid coordinates, check the cooldown
(fail-closed), check the color with the hex regular expression, then run the
transaction; `commitOk = false` stands for any failure inside the
transaction, whose ROLLBACK restores the database rows, after which the
outer catch returns a server-error result; on success the transaction sets
last_pixel_time and cachePixel refreshes the cooldown cache entry. -/
def placePixel (st : SvcState) (lat lng : ℚ) (color : String) (userId : ℤ)
    (now : ℤ) (lookupFails commitOk : Bool) : SvcResult × SvcState :=
  let grid := GridSystem.geoToGrid lat lng
  let (canPlace, st1) := checkUserCooldown st now lookupFails
  if !canPlace then
    (⟨false, some "Vous devez attendre 30 secondes entre chaque pixel"⟩, st1)
  else if !isValidColorHex color then
    (⟨false, some "Couleur invalide"⟩, st1)
  else if !commitOk then
    (⟨false, some "Erreur serveur"⟩, st1)
  else
    (⟨true, none⟩,
     { dbLast := some now
       cooldownCache := some now
       pixels := upsertPixel st1.pixels ⟨grid.1, grid.2, color, userId⟩ })

end Service

end Wplace

namespace Wplace

open Service

/-- The cooldown check never changes the users table or the pixel rows; it
changes the cache only by filling it with the old users-table value, and the
timestamp it observes is unchanged. -/
lemma checkUserCooldown_keeps_state (st : SvcState) (now : ℤ)
    (lookupFails : Bool) :
    (checkUserCooldown st now lookupFails).2.dbLast = st.dbLast ∧
    (checkUserCooldown st now lookupFails).2.pixels = st.pixels ∧
    cooldownTimestamp (checkUserCooldown st now lookupFails).2 =
      cooldownTimestamp st ∧
    ((checkUserCooldown st now lookupFails).2.cooldownCache =
        st.cooldownCache ∨
      (checkUserCooldown st now lookupFails).2.cooldownCache = st.dbLast) := by
  rcases st with ⟨dbLast, cache, pixels⟩
  rcases lookupFails with _ | _ <;>
    rcases cache with _ | t <;>
      rcases dbLast with _ | u <;>
        simp [checkUserCooldown, cooldownTimestamp]

/-- C3: if the write inside placePixel fails (the transaction rolls back),
the call reports failure, the users-table last_pixel_time is unchanged, the
timestamp observed by the cooldown check is unchanged, the cooldown cache
was at most filled with the old users-table value during the read, and no
pixel row is committed. -/
theorem c3_failed_commit_preserves_cooldown (st : SvcState) (lat lng : ℚ)
    (color : String) (userId now : ℤ) (lookupFails : Bool) :
    (placePixel st lat lng color userId now lookupFails false).1.success = false ∧
    (placePixel st lat lng color userId now lookupFails false).2.dbLast =
      st.dbLast ∧
    cooldownTimestamp
        (placePixel st lat lng color userId now lookupFails false).2 =
      cooldownTimestamp st ∧
    ((placePixel st lat lng color userId now lookupFails false).2.cooldownCache =
        st.cooldownCache ∨
      (placePixel st lat lng color userId now lookupFails false).2.cooldownCache =
        st.dbLast) ∧
    (placePixel st lat lng color userId now lookupFails false).2.pixels =
      st.pixels := by
  have hkeep := checkUserCooldown_keeps_state st now lookupFails
  rcases hres : checkUserCooldown st now lookupFails with ⟨canPlace, st1⟩
  rw [hres] at hkeep
  have hbr :
      (placePixel st lat lng color userId now lookupFails false).1.success =
        false ∧
      (placePixel st lat lng color userId now lookupFails false).2 = st1 := by
    simp only [placePixel, hres]
    cases canPlace <;> by_cases hc : isValidColorHex color <;> simp [hc]
  rw [hbr.2]
  exact ⟨hbr.1, hkeep.1, hkeep.2.2.1, hkeep.2.2.2, hkeep.2.1⟩

/-- C10: if the cooldown lookup itself fails, placePixel rejects the
placement with the cooldown message (not the server-error message) and
leaves the state untouched, for every commit outcome: a storage error
during the cooldown check can never allow a placement. -/
theorem c10_cooldown_lookup_failure_fail_closed (st : SvcState) (lat lng : ℚ)
    (color : String) (userId now : ℤ) (commitOk : Bool) :
    (placePixel st lat lng color userId now true commitOk).1.success = false ∧
    (placePixel st lat lng color userId now true commitOk).1.message =
      some "Vous devez attendre 30 secondes entre chaque pixel" ∧
    (placePixel st lat lng color userId now true commitOk).1.message ≠
      some "Erreur serveur" ∧
    (placePixel st lat lng color userId now true commitOk).2 = st := by
  simp [placePixel, checkUserCooldown]

end Wplace

namespace Wplace

namespace RouteApi

/-- GRID_CONFIG.COOLDOWN_SECONDS = 30 (gridConfig.ts). -/
def COOLDOWN_SECONDS : ℤ := 30

/-- Result record of checkCooldown in route.ts. -/
structure CooldownCheck where
  canPlace : Bool
  remainingSeconds : ℤ
deriving DecidableEq, Repr

/-- checkCooldown of route.ts: no recorded placement means allowed;
otherwise remainingMs = COOLDOWN_SECONDS * 1000 - (now - lastPixelTime),
allowed exactly when remainingMs is not positive, and the remaining wait is
reported as max 0 (ceiling of remainingMs / 1000) seconds. -/
def checkCooldown (lastPixelTime : Option ℤ) (now : ℤ) : CooldownCheck :=
  match lastPixelTime with
  | none => ⟨true, 0⟩
  | some t =>
      let timeSinceLastPixel := now - t
      let cooldownMs := COOLDOWN_SECONDS * 1000
      let remainingMs := cooldownMs - timeSinceLastPixel
      ⟨decide (remainingMs ≤ 0), max 0 ⌈(remainingMs : ℚ) / 1000⌉⟩

/-- Outcome of the POST /api/pixels handler (after authentication). -/
inductive PostOutcome where
  | ok
  | err (status : ℕ) (error : String)
  | cooldownErr (status : ℕ) (error : String) (remainingSeconds : ℤ)
deriving DecidableEq, Repr

/-- POST /api/pixels of route.ts, after authentication: validate the
placement data, check palette membership of the color, check the premium
entitlement, check the cooldown, then commit the upsert transaction. -/
def postPlacePixel (isPremium : Bool) (lastPixelTime : Option ℤ) (now : ℤ)
    (gridX gridY : ℤ) (color : String) (userId : ℤ)
    (store : List Service.PixelRow) : PostOutcome × List Service.PixelRow :=
  match PixelGrid.validatePixelPlacement gridX gridY color userId with
  | some err => (.err 400 err, store)
  | none =>
      if !PixelGrid.isValidColor color then
        (.err 400 "Couleur invalide", store)
      else if !PixelGrid.isFreeColor color && !isPremium then
        (.err 403 "Cette couleur nécessite un compte premium", store)
      else
        let cooldownCheck := checkCooldown lastPixelTime now
        if !cooldownCheck.canPlace then
          (.cooldownErr 429
            ("Attendez " ++ toString cooldownCheck.remainingSeconds ++
              " secondes avant de placer un autre pixel")
            cooldownCheck.remainingSeconds, store)
        else
          (.ok, Service.upsertPixel store ⟨gridX, gridY, color, userId⟩)

end RouteApi

end Wplace

namespace Wplace

/-- C2: the cooldown check treats a user who never placed as allowed, allows
exactly when max 0 (COOLDOWN_MS - (now - lastPlacementTime)) is zero,
rejects a second placement made less than COOLDOWN_MS after an accepted one
with positive reported remaining time, accepts once the cooldown has
elapsed, and the pixelService variant of the check agrees. -/
theorem c2_cooldown_check (t now now2 now3 : ℤ) (dbl : Option ℤ)
    (pxs : List Service.PixelRow)
    (h2 : now2 - t < 30000) (h3 : 30000 ≤ now3 - t) :
    (RouteApi.checkCooldown none now).canPlace = true ∧
    ((RouteApi.checkCooldown (some t) now).canPlace = true ↔
      max 0 (30000 - (now - t)) = 0) ∧
    (RouteApi.checkCooldown (some t) now2).canPlace = false ∧
    0 < (RouteApi.checkCooldown (some t) now2).remainingSeconds ∧
    (RouteApi.checkCooldown (some t) now3).canPlace = true ∧
    (Service.checkUserCooldown ⟨dbl, some t, pxs⟩ now false).1 =
      decide (30000 ≤ now - t) ∧
    (Service.checkUserCooldown ⟨none, none, pxs⟩ now false).1 = true := by
  refine ⟨rfl, ?_, ?_, ?_, ?_, rfl, rfl⟩
  · simp only [RouteApi.checkCooldown, RouteApi.COOLDOWN_SECONDS,
      decide_eq_true_eq]
    omega
  · simp only [RouteApi.checkCooldown, RouteApi.COOLDOWN_SECONDS,
      decide_eq_false_iff_not]
    omega
  · simp only [RouteApi.checkCooldown, RouteApi.COOLDOWN_SECONDS]
    have hpos : (0 : ℚ) < ((30 * 1000 - (now2 - t) : ℤ) : ℚ) / 1000 := by
      apply div_pos _ (by norm_num)
      exact_mod_cast (by omega : (0 : ℤ) < 30 * 1000 - (now2 - t))
    exact lt_of_lt_of_le (Int.ceil_pos.mpr hpos) (le_max_right 0 _)
  · simp only [RouteApi.checkCooldown, RouteApi.COOLDOWN_SECONDS,
      decide_eq_true_eq]
    omega

/-- Witness for C2 with a placement at time 0, a retry at 10000 ms and a
retry at 40000 ms. -/
theorem c2_cooldown_check_witness :
    (10000 : ℤ) - 0 < 30000 ∧ (30000 : ℤ) ≤ 40000 - 0 ∧
    (RouteApi.checkCooldown (some 0) 10000).canPlace = false ∧
    0 < (RouteApi.checkCooldown (some 0) 10000).remainingSeconds ∧
    (RouteApi.checkCooldown (some 0) 40000).canPlace = true :=
  have h := c2_cooldown_check 0 10000 10000 40000 none [] (by decide) (by decide)
  ⟨by decide, by decide, h.2.2.1, h.2.2.2.1, h.2.2.2.2.1⟩

/-- C5 counterexample: the color check on the PixelService.placePixel path
is only the hex-format test, so the non-palette but well-formed color
0x123456 is accepted and committed there. -/
theorem c5_counterexample_service_accepts_nonpalette_color :
    Service.isValidColorHex "#123456" = true ∧
    PixelGrid.isValidColor "#123456" = false ∧
    (Service.placePixel ⟨none, none, []⟩ 0 0 "#123456" 1 1000 false true).1 =
      ⟨true, none⟩ := by
  refine ⟨by decide, by decide, by decide⟩

/-- C5 (amended): on the POST /api/pixels route the color check is palette
membership: a proposed placement whose color is not in the configured
palette is rejected with the InvalidColor message and commits nothing, and
the route accepts a color only if it belongs to the palette. -/
theorem c5_amended_route_palette_enforced (isPremium : Bool)
    (lastPixelTime : Option ℤ) (now gridX gridY userId : ℤ) (color : String)
    (store : List Service.PixelRow)
    (hpos : PixelGrid.isValidGridPosition gridX gridY = true)
    (_huser : 0 < userId)
    (hcolor : PixelGrid.isValidColor color = false) :
    (RouteApi.postPlacePixel isPremium lastPixelTime now gridX gridY color
        userId store).1 = .err 400 "Couleur invalide" ∧
    (RouteApi.postPlacePixel isPremium lastPixelTime now gridX gridY color
        userId store).2 = store ∧
    (∀ c : String,
      (RouteApi.postPlacePixel isPremium lastPixelTime now gridX gridY c
          userId store).1 = .ok → PixelGrid.isValidColor c = true) := by
  refine ⟨?_, ?_, ?_⟩
  · simp [RouteApi.postPlacePixel, PixelGrid.validatePixelPlacement, hpos,
      hcolor]
  · simp [RouteApi.postPlacePixel, PixelGrid.validatePixelPlacement, hpos,
      hcolor]
  · intro c hok
    by_contra hcc
    have hcc' : PixelGrid.isValidColor c = false := by
      simpa using hcc
    cases hv : PixelGrid.isValidGridPosition gridX gridY <;>
      simp [RouteApi.postPlacePixel, PixelGrid.validatePixelPlacement, hv,
        hcc'] at hok

/-- Witness for C5 (amended) at the valid cell (10, 20), user 1, and the
well-formed non-palette color 0x123456. -/
theorem c5_amended_route_palette_enforced_witness :
    PixelGrid.isValidGridPosition 10 20 = true ∧
    PixelGrid.isValidColor "#123456" = false ∧
    (RouteApi.postPlacePixel false none 0 10 20 "#123456" 1 []).1 =
      .err 400 "Couleur invalide" ∧
    (RouteApi.postPlacePixel false none 0 10 20 "#123456" 1 []).2 = [] := by
  have hv : PixelGrid.isValidGridPosition 10 20 = true :=
    (isValidGridPosition_iff 10 20).mpr (by norm_num)
  have h := c5_amended_route_palette_enforced false none 0 10 20 1 "#123456"
    [] hv (by norm_num) (by decide)
  exact ⟨hv, by decide, h.1, h.2.1⟩

end Wplace

namespace Wplace

namespace Ws

/-- Server state of websocketServer.ts that the claims concern:
connectedUsers maps a socket id to the currentChunks set of the user, and
chunkSubscriptions maps a chunk id to its subscriber socket-id set.
JavaScript Map and Set preserve insertion order, so both are modelled as
association lists and duplicate-free lists. -/
structure WsState where
  users : List (String × List String)
  subs : List (String × List String)
deriving DecidableEq, Repr

/-- The empty server state. -/
def initialState : WsState := ⟨[], []⟩

/-- Map.set of JavaScript: replace the value if the key is present, else
append the binding. -/
def setAssoc (m : List (String × List String)) (k : String)
    (v : List String) : List (String × List String) :=
  if (m.lookup k).isSome then
    m.map fun kv => if kv.1 = k then (k, v) else kv
  else m ++ [(k, v)]

/-- Set.add of JavaScript: append the element unless already present. -/
def addUnique (l : List String) (x : String) : List String :=
  if l.contains x then l else l ++ [x]

/-- The unsubscribe step of subscribeToChunks and of the disconnect cleanup:
delete the socket from the given chunk's subscriber set and drop the entry
when the set becomes empty. -/
def removeSubscriber (subs : List (String × List String))
    (chunkId socketId : String) : List (String × List String) :=
  subs.filterMap fun kv =>
    if kv.1 = chunkId then
      let remaining := kv.2.filter fun x => x ≠ socketId
      if remaining.isEmpty then none else some (chunkId, remaining)
    else some kv

/-- The subscribe step of subscribeToChunks: create the entry if missing,
then add the socket to the subscriber set. -/
def addSubscriber (subs : List (String × List String))
    (chunkId socketId : String) : List (String × List String) :=
  if (subs.lookup chunkId).isSome then
    subs.map fun kv =>
      if kv.1 = chunkId then (chunkId, addUnique kv.2 socketId) else kv
  else subs ++ [(chunkId, [socketId])]

/-- subscribeToChunks of websocketServer.ts: if the socket is unknown do
nothing; otherwise unsubscribe from all current chunks, clear currentChunks,
then register the chunk ids of the given chunks (a JavaScript Set, so
duplicates collapse) and add the socket to each chunk's subscriber set. -/
def subscribeToChunks (st : WsState) (socketId : String)
    (chunks : List PixelGrid.ChunkCoordinates) : WsState :=
  match st.users.lookup socketId with
  | none => st
  | some currentChunks =>
      let subs1 := currentChunks.foldl
        (fun acc chunkId => removeSubscriber acc chunkId socketId) st.subs
      let chunkIds := chunks.map fun c => PixelGrid.getChunkId c.chunkX c.chunkY
      let newCurrent := chunkIds.foldl addUnique []
      let subs2 := chunkIds.foldl
        (fun acc chunkId => addSubscriber acc chunkId socketId) subs1
      { users := setAssoc st.users socketId newCurrent, subs := subs2 }

/-- The connection handler: register the socket with an empty currentChunks
set. -/
def connectSocket (st : WsState) (socketId : String) : WsState :=
  { st with users := setAssoc st.users socketId [] }

/-- The subscribe:chunks event handler of websocketServer.ts: it receives
bounds and zoom but computes the chunks with
pixelGridSystem.getVisibleChunks, which takes only the bounds — the zoom
value is never consulted. -/
def handleSubscribeChunks (st : WsState) (socketId : String)
    (bounds : PixelGrid.Bounds) (_zoom : ℤ) : WsState :=
  subscribeToChunks st socketId (PixelGrid.getVisibleChunks bounds)

/-- What the disconnect event executes in websocketServer.ts: the handler
body only logs and registers a further nested disconnect listener (which
contains the cleanup code) plus an error listener.  A socket.io socket
emits disconnect once, so a listener registered inside the already-running
disconnect handler never fires, and no subscription state changes. -/
def disconnectFired (st : WsState) (_socketId : String) : WsState := st

/-- The subscriber set of a chunk (empty for a missing entry). -/
def subscribersOf (st : WsState) (chunkId : String) : List String :=
  (st.subs.lookup chunkId).getD []

/-- Events sent to individual sockets by the pixel:place handler. -/
structure PixelEvt where
  gridX : ℤ
  gridY : ℤ
  color : String
deriving DecidableEq, Repr

/-- An emitted socket.io event. -/
inductive Event where
  | pixelPlaced (p : PixelEvt)
  | pixelConfirmed (p : PixelEvt)
  | errorMsg (text : String)
deriving DecidableEq, Repr

/-- A message addressed to one socket. -/
structure Msg where
  dest : String
  event : Event
deriving DecidableEq, Repr

/-- broadcastToChunk of websocketServer.ts: emit the event to every
subscriber of the chunk except the excluded socket; with no entry for the
chunk nothing is sent. -/
def broadcastToChunk (st : WsState) (chunkId : String) (event : Event)
    (excludeSocketId : Option String) : List Msg :=
  match st.subs.lookup chunkId with
  | none => []
  | some subscription =>
      subscription.filterMap fun socketId =>
        if some socketId ≠ excludeSocketId then some ⟨socketId, event⟩
        else none

/-- The chunk id the pixel:place handler computes for a placement
(CHUNK_SIZE = 64 hardcoded in the handler). -/
def chunkIdOfPixel (p : PixelEvt) : String :=
  PixelGrid.getChunkId (Int.fdiv p.gridX 64) (Int.fdiv p.gridY 64)

/-- The pixel:place event handler of websocketServer.ts: unauthenticated
sockets get an error; otherwise the placement is broadcast to the
subscribers of its chunk excluding the sender, and the sender receives a
pixel:confirmed acknowledgment. -/
def handlePixelPlace (st : WsState) (senderId : String) (isAuthenticated : Bool)
    (p : PixelEvt) : List Msg :=
  if !isAuthenticated then
    [⟨senderId, .errorMsg "Authentification requise pour placer des pixels"⟩]
  else
    broadcastToChunk st (chunkIdOfPixel p) (.pixelPlaced p) (some senderId) ++
      [⟨senderId, .pixelConfirmed p⟩]

end Ws

end Wplace

namespace Wplace

open Ws

/-- The broadcast filterMap is the subscriber list with the excluded sender
filtered out, each entry turned into a message. -/
lemma broadcast_filterMap_eq (l : List String) (sender : String)
    (ev : Event) :
    (l.filterMap fun socketId =>
        if some socketId ≠ some sender then some (⟨socketId, ev⟩ : Msg)
        else none) =
      (l.filter fun socketId => socketId ≠ sender).map
        fun socketId => (⟨socketId, ev⟩ : Msg) := by
  induction l with
  | nil => rfl
  | cons a l ih =>
      simp only [ne_eq, Option.some.injEq, ite_not, decide_not] at ih ⊢
      rw [List.filterMap_cons, List.filter_cons]
      by_cases ha : a = sender
      · simp [ha, ih]
      · simp [ha, ih]

/-- Counting the messages that broadcastToChunk emits to one socket from one
subscriber list: none when the socket is the excluded sender, otherwise one
per occurrence in the subscriber list. -/
lemma count_broadcast_filterMap (l : List String) (sender c : String)
    (ev : Event) :
    ((l.filterMap fun socketId =>
        if some socketId ≠ some sender then
          some (⟨socketId, ev⟩ : Msg)
        else none).count ⟨c, ev⟩) =
      if c = sender then 0 else l.count c := by
  rw [broadcast_filterMap_eq]
  by_cases hc : c = sender
  · rw [if_pos hc]
    apply List.count_eq_zero_of_not_mem
    intro hmem
    rcases List.mem_map.mp hmem with ⟨sid, hsid, heq⟩
    have hds : sid = c := congrArg Msg.dest heq
    have hps := List.of_mem_filter hsid
    rw [hds, hc] at hps
    simp at hps
  · rw [if_neg hc]
    have hinj : Function.Injective fun socketId => (⟨socketId, ev⟩ : Msg) :=
      fun x y h => congrArg Msg.dest h
    rw [List.count_map_of_injective _ _ hinj]
    exact List.count_filter (by simp [hc])

/-- C4: when an authenticated placement is handled, every subscriber of the
placement's chunk other than the sender receives exactly one pixelPlaced
event carrying that placement, the sender receives none but receives the
direct confirmation, and a socket that is not a subscriber of that chunk
receives no pixelPlaced event. -/
theorem c4_broadcast_to_chunk_subscribers (st : WsState) (sender : String)
    (p : PixelEvt) (l : List String)
    (hC : st.subs.lookup (chunkIdOfPixel p) = some l) (hnd : l.Nodup) :
    (∀ c ∈ l, c ≠ sender →
      (handlePixelPlace st sender true p).count ⟨c, .pixelPlaced p⟩ = 1) ∧
    (handlePixelPlace st sender true p).count ⟨sender, .pixelPlaced p⟩ = 0 ∧
    (⟨sender, .pixelConfirmed p⟩ : Msg) ∈ handlePixelPlace st sender true p ∧
    (∀ c, c ∉ l →
      (handlePixelPlace st sender true p).count ⟨c, .pixelPlaced p⟩ = 0) := by
  have hmain : handlePixelPlace st sender true p =
      (l.filterMap fun socketId =>
        if some socketId ≠ some sender then
          some (⟨socketId, Event.pixelPlaced p⟩ : Msg)
        else none) ++ [⟨sender, .pixelConfirmed p⟩] := by
    simp [handlePixelPlace, broadcastToChunk, hC]
  rw [hmain]
  have hconf : ∀ c : String,
      (([⟨sender, Event.pixelConfirmed p⟩] : List Msg).count
        ⟨c, .pixelPlaced p⟩) = 0 := by
    intro c
    simp [List.count_cons, Msg.mk.injEq]
  refine ⟨?_, ?_, ?_, ?_⟩
  · intro c hcl hcs
    rw [List.count_append, count_broadcast_filterMap, hconf]
    simp [hcs, List.count_eq_one_of_mem hnd hcl]
  · rw [List.count_append, count_broadcast_filterMap, hconf]
    simp
  · exact List.mem_append_right _ (List.mem_singleton.mpr rfl)
  · intro c hcl
    rw [List.count_append, count_broadcast_filterMap, hconf]
    by_cases hc : c = sender
    · simp [hc]
    · simp [hc, List.count_eq_zero_of_not_mem hcl]

/-- Witness for C4: chunk chunk_0_0 has subscribers a and b, a places a
pixel at cell (10, 20); b gets exactly one pixelPlaced event, a gets the
confirmation and no pixelPlaced event. -/
theorem c4_broadcast_to_chunk_subscribers_witness :
    ((⟨[("a", ["chunk_0_0"]), ("b", ["chunk_0_0"])],
        [("chunk_0_0", ["a", "b"])]⟩ : WsState).subs.lookup
      (chunkIdOfPixel ⟨10, 20, "#FF0000"⟩) = some ["a", "b"]) ∧
    (handlePixelPlace ⟨[("a", ["chunk_0_0"]), ("b", ["chunk_0_0"])],
        [("chunk_0_0", ["a", "b"])]⟩ "a" true ⟨10, 20, "#FF0000"⟩).count
      ⟨"b", .pixelPlaced ⟨10, 20, "#FF0000"⟩⟩ = 1 ∧
    (handlePixelPlace ⟨[("a", ["chunk_0_0"]), ("b", ["chunk_0_0"])],
        [("chunk_0_0", ["a", "b"])]⟩ "a" true ⟨10, 20, "#FF0000"⟩).count
      ⟨"a", .pixelPlaced ⟨10, 20, "#FF0000"⟩⟩ = 0 ∧
    (⟨"a", .pixelConfirmed ⟨10, 20, "#FF0000"⟩⟩ : Msg) ∈
      handlePixelPlace ⟨[("a", ["chunk_0_0"]), ("b", ["chunk_0_0"])],
        [("chunk_0_0", ["a", "b"])]⟩ "a" true ⟨10, 20, "#FF0000"⟩ ∧
    (handlePixelPlace ⟨[("a", ["chunk_0_0"]), ("b", ["chunk_0_0"])],
        [("chunk_0_0", ["a", "b"])]⟩ "a" true ⟨10, 20, "#FF0000"⟩).count
      ⟨"z", .pixelPlaced ⟨10, 20, "#FF0000"⟩⟩ = 0 := by
  have h := c4_broadcast_to_chunk_subscribers
    ⟨[("a", ["chunk_0_0"]), ("b", ["chunk_0_0"])],
      [("chunk_0_0", ["a", "b"])]⟩ "a" ⟨10, 20, "#FF0000"⟩ ["a", "b"]
    (by decide) (by decide)
  exact ⟨by decide, h.1 "b" (by decide) (by decide), h.2.1, h.2.2.1,
    h.2.2.2 "z" (by decide)⟩

end Wplace

namespace Wplace

/-- geoToGrid at the origin, evaluated. -/
lemma geoToGrid_origin : PixelGrid.geoToGrid 0 0 = ⟨1800000, 850511⟩ := by
  norm_num [PixelGrid.geoToGrid, PixelGrid.MIN_LAT, PixelGrid.MAX_LAT,
    PixelGrid.MIN_LNG, PixelGrid.MAX_LNG, PixelGrid.PIXEL_SIZE_DEGREES]

/-- The chunk list of the degenerate viewport at the origin. -/
lemma getVisibleChunks_origin :
    PixelGrid.getVisibleChunks ⟨0, 0, 0, 0⟩ = [⟨28125, 13289⟩] := by
  simp only [PixelGrid.getVisibleChunks, geoToGrid_origin]
  decide

/-- C8 counterexample: at zoom 0, below every configured visibility
threshold, the subscribe:chunks handler still registers the client as a
subscriber of the viewport's chunk, because it computes the chunk set with
the zoom-free pixelGridSystem.getVisibleChunks. -/
theorem c8_counterexample_low_zoom_still_subscribes :
    (0 : ℤ) < PixelGrid.ZOOM_MIN_VISIBLE ∧
    (0 : ℤ) < GridSystem.MIN_ZOOM_VISIBLE ∧
    Ws.subscribersOf
      (Ws.handleSubscribeChunks (Ws.connectSocket Ws.initialState "s1") "s1"
        ⟨0, 0, 0, 0⟩ 0) "chunk_28125_13289" = ["s1"] := by
  refine ⟨by decide, by decide, ?_⟩
  show Ws.subscribersOf
      (Ws.subscribeToChunks (Ws.connectSocket Ws.initialState "s1") "s1"
        (PixelGrid.getVisibleChunks ⟨0, 0, 0, 0⟩)) "chunk_28125_13289" = ["s1"]
  rw [getVisibleChunks_origin]
  decide

/-- C8 (amended): the gridSystem.ts variant getVisibleChunks does implement
the zoom gate and returns the empty chunk set below MIN_ZOOM_VISIBLE; the
websocket subscription handler, however, uses the zoom-free
pixelGridSystem variant, as the counterexample shows. -/
theorem c8_amended_gridsystem_zoom_gate (b : GridSystem.MapBounds) (zoom : ℤ)
    (h : zoom < GridSystem.MIN_ZOOM_VISIBLE) :
    GridSystem.getVisibleChunks b zoom = [] := by
  simp [GridSystem.getVisibleChunks, h]

/-- Witness for the amended C8 at zoom 0. -/
theorem c8_amended_gridsystem_zoom_gate_witness :
    (0 : ℤ) < GridSystem.MIN_ZOOM_VISIBLE ∧
    GridSystem.getVisibleChunks ⟨1, 0, 1, 0⟩ 0 = [] :=
  ⟨by decide, c8_amended_gridsystem_zoom_gate ⟨1, 0, 1, 0⟩ 0 (by decide)⟩

/-- C9: evaluation of the code at the failing input.  A client connects,
subscribes to the chunk of cell (0, 0), and its socket then disconnects;
the disconnect handler that actually runs only registers nested listeners
(the cleanup block sits inside a nested disconnect listener that can never
fire again), so the client is still registered as a subscriber afterwards,
contradicting the claim that a disconnected client appears in no chunk's
subscriber set. -/
theorem c9_disconnect_cleanup_never_runs :
    Ws.subscribersOf
      (Ws.disconnectFired
        (Ws.subscribeToChunks (Ws.connectSocket Ws.initialState "s1") "s1"
          [⟨0, 0⟩]) "s1") "chunk_0_0" = ["s1"] := by
  decide

end Wplace

namespace Wplace

open PixelGrid

/-- A cell rectangle and a viewport rectangle (both closed) intersect. -/
def cellIntersects (g : GridCoordinates) (b : Bounds) : Prop :=
  (getPixelBounds g.gridX g.gridY).west ≤ b.east ∧
  b.west ≤ (getPixelBounds g.gridX g.gridY).east ∧
  (getPixelBounds g.gridX g.gridY).south ≤ b.north ∧
  b.south ≤ (getPixelBounds g.gridX g.gridY).north

/-- geoToGrid without the clamp when the point is in world bounds. -/
lemma geoToGrid_of_inbounds (lat lng : ℚ)
    (h1 : MIN_LAT ≤ lat) (h2 : lat ≤ MAX_LAT)
    (h3 : MIN_LNG ≤ lng) (h4 : lng ≤ MAX_LNG) :
    geoToGrid lat lng =
      ⟨⌊(lng - MIN_LNG) / PIXEL_SIZE_DEGREES⌋,
       ⌊(MAX_LAT - lat) / PIXEL_SIZE_DEGREES⌋⟩ := by
  simp only [geoToGrid]
  rw [min_eq_right h4, max_eq_right h3, min_eq_right h2, max_eq_right h1]

/-- Multiplying back: an integer below the floor of r divided by the pixel
size stays below r after scaling. -/
lemma mul_pixel_le_of_le_floor (r : ℚ) (n : ℤ)
    (h : n ≤ ⌊r / PIXEL_SIZE_DEGREES⌋) :
    (n : ℚ) * PIXEL_SIZE_DEGREES ≤ r := by
  have hp := pixel_size_pos
  have h1 : (n : ℚ) ≤ r / PIXEL_SIZE_DEGREES :=
    le_trans (by exact_mod_cast h) (Int.floor_le _)
  calc (n : ℚ) * PIXEL_SIZE_DEGREES
      ≤ (r / PIXEL_SIZE_DEGREES) * PIXEL_SIZE_DEGREES :=
        mul_le_mul_of_nonneg_right h1 (le_of_lt hp)
    _ = r := div_mul_cancel₀ r (ne_of_gt hp)

/-- The other direction: r is below the scaled successor of any integer at
or above the floor of r divided by the pixel size. -/
lemma lt_succ_mul_pixel_of_floor_le (r : ℚ) (n : ℤ)
    (h : ⌊r / PIXEL_SIZE_DEGREES⌋ ≤ n) :
    r < ((n : ℚ) + 1) * PIXEL_SIZE_DEGREES := by
  have hp := pixel_size_pos
  have h1 : r / PIXEL_SIZE_DEGREES < (⌊r / PIXEL_SIZE_DEGREES⌋ : ℚ) + 1 :=
    Int.lt_floor_add_one _
  have h2 : r / PIXEL_SIZE_DEGREES < (n : ℚ) + 1 :=
    lt_of_lt_of_le h1 (by exact_mod_cast add_le_add_right h 1)
  calc r = (r / PIXEL_SIZE_DEGREES) * PIXEL_SIZE_DEGREES :=
        (div_mul_cancel₀ r (ne_of_gt hp)).symm
    _ < ((n : ℚ) + 1) * PIXEL_SIZE_DEGREES :=
        mul_lt_mul_of_pos_right h2 hp

/-- Cap on the length of the nested enumeration pattern used by
getVisiblePixels. -/
lemma length_flatMap_range_filterMap_le {α : Type} (n m : ℕ)
    (f : ℕ → ℕ → Option α) :
    ((List.range n).flatMap fun i => (List.range m).filterMap (f i)).length ≤
      n * m := by
  rw [List.length_flatMap]
  have hinner : ∀ x ∈ (List.range n).map
      (fun i => ((List.range m).filterMap (f i)).length), x ≤ m := by
    intro x hx
    rcases List.mem_map.mp hx with ⟨i, _, rfl⟩
    exact le_trans (List.length_filterMap_le _ _) (le_of_eq (List.length_range m))
  have hsum := List.sum_le_card_nsmul _ m hinner
  rw [smul_eq_mul, List.length_map, List.length_range] at hsum
  exact hsum

/-- C6: for every viewport whose edges are legal GeoPoint coordinates and
every zoom, getVisiblePixels returns at most MAX_PIXELS_PER_REQUEST = 4096
cells, and every returned cell intersects the viewport rectangle. -/
theorem c6_visible_pixels_cap_and_inside (b : Bounds) (zoom : ℤ)
    (hw : MIN_LNG ≤ b.west ∧ b.west ≤ MAX_LNG)
    (he : MIN_LNG ≤ b.east ∧ b.east ≤ MAX_LNG)
    (hn : MIN_LAT ≤ b.north ∧ b.north ≤ MAX_LAT)
    (hs : MIN_LAT ≤ b.south ∧ b.south ≤ MAX_LAT) :
    (getVisiblePixels b zoom).length ≤ 4096 ∧
    ∀ g ∈ getVisiblePixels b zoom, cellIntersects g b := by
  have hTLx : (geoToGrid b.north b.west).gridX =
      ⌊(b.west - MIN_LNG) / PIXEL_SIZE_DEGREES⌋ := by
    rw [geoToGrid_of_inbounds b.north b.west hn.1 hn.2 hw.1 hw.2]
  have hTLy : (geoToGrid b.north b.west).gridY =
      ⌊(MAX_LAT - b.north) / PIXEL_SIZE_DEGREES⌋ := by
    rw [geoToGrid_of_inbounds b.north b.west hn.1 hn.2 hw.1 hw.2]
  have hBRx : (geoToGrid b.south b.east).gridX =
      ⌊(b.east - MIN_LNG) / PIXEL_SIZE_DEGREES⌋ := by
    rw [geoToGrid_of_inbounds b.south b.east hs.1 hs.2 he.1 he.2]
  have hBRy : (geoToGrid b.south b.east).gridY =
      ⌊(MAX_LAT - b.south) / PIXEL_SIZE_DEGREES⌋ := by
    rw [geoToGrid_of_inbounds b.south b.east hs.1 hs.2 he.1 he.2]
  by_cases hz : zoom < ZOOM_MIN_VISIBLE
  · simp [getVisiblePixels, hz]
  · constructor
    · -- cap
      simp only [getVisiblePixels, if_neg hz]
      refine le_trans (length_flatMap_range_filterMap_le _ _ _) ?_
      have hx64 : (min ((geoToGrid b.south b.east).gridX -
          (geoToGrid b.north b.west).gridX + 1) maxPixelsPerSide).toNat ≤ 64 :=
        le_trans (Int.toNat_le_toNat (min_le_right _ _)) (le_of_eq rfl)
      have hy64 : (min ((geoToGrid b.south b.east).gridY -
          (geoToGrid b.north b.west).gridY + 1) maxPixelsPerSide).toNat ≤ 64 :=
        le_trans (Int.toNat_le_toNat (min_le_right _ _)) (le_of_eq rfl)
      exact le_trans (Nat.mul_le_mul hx64 hy64) (by norm_num)
    · -- every returned cell intersects the viewport
      intro g hg
      simp only [getVisiblePixels, if_neg hz, List.mem_flatMap,
        List.mem_filterMap, List.mem_range] at hg
      obtain ⟨i, hi, j, hj, hsome⟩ := hg
      by_cases hvalid : isValidGridPosition
          ((geoToGrid b.north b.west).gridX + (i : ℤ))
          ((geoToGrid b.north b.west).gridY + (j : ℤ)) = true
      · rw [if_pos hvalid] at hsome
        obtain rfl := (Option.some.injEq _ _).mp hsome
        have hi' : (i : ℤ) < min ((geoToGrid b.south b.east).gridX -
            (geoToGrid b.north b.west).gridX + 1) maxPixelsPerSide :=
          Int.lt_toNat.mp hi
        have hj' : (j : ℤ) < min ((geoToGrid b.south b.east).gridY -
            (geoToGrid b.north b.west).gridY + 1) maxPixelsPerSide :=
          Int.lt_toNat.mp hj
        have hgx_le : (geoToGrid b.north b.west).gridX + (i : ℤ) ≤
            (geoToGrid b.south b.east).gridX := by
          have := min_le_left ((geoToGrid b.south b.east).gridX -
            (geoToGrid b.north b.west).gridX + 1) maxPixelsPerSide
          omega
        have hgy_le : (geoToGrid b.north b.west).gridY + (j : ℤ) ≤
            (geoToGrid b.south b.east).gridY := by
          have := min_le_left ((geoToGrid b.south b.east).gridY -
            (geoToGrid b.north b.west).gridY + 1) maxPixelsPerSide
          omega
        rw [hTLx, hTLy] at *
        rw [hBRx] at hgx_le
        rw [hBRy] at hgy_le
        have h1 := mul_pixel_le_of_le_floor (b.east - MIN_LNG) _ hgx_le
        have h2 := lt_succ_mul_pixel_of_floor_le (b.west - MIN_LNG)
          (⌊(b.west - MIN_LNG) / PIXEL_SIZE_DEGREES⌋ + (i : ℤ))
          (by omega)
        have h3 := mul_pixel_le_of_le_floor (MAX_LAT - b.south) _ hgy_le
        have h4 := lt_succ_mul_pixel_of_floor_le (MAX_LAT - b.north)
          (⌊(MAX_LAT - b.north) / PIXEL_SIZE_DEGREES⌋ + (j : ℤ))
          (by omega)
        refine ⟨?_, ?_, ?_, ?_⟩ <;>
          simp only [getPixelBounds] <;> push_cast at h1 h2 h3 h4 ⊢ <;> linarith
      · rw [if_neg hvalid] at hsome
        exact absurd hsome (by simp)

/-- Witness for C6 at a small viewport around the origin at zoom 14. -/
theorem c6_visible_pixels_cap_and_inside_witness :
    (MIN_LNG ≤ (-(1/10) : ℚ) ∧ (-(1/10) : ℚ) ≤ MAX_LNG) ∧
    (MIN_LAT ≤ (1/10 : ℚ) ∧ (1/10 : ℚ) ≤ MAX_LAT) ∧
    (getVisiblePixels ⟨1/10, -(1/10), 1/10, -(1/10)⟩ 14).length ≤ 4096 ∧
    ∀ g ∈ getVisiblePixels ⟨1/10, -(1/10), 1/10, -(1/10)⟩ 14,
      cellIntersects g ⟨1/10, -(1/10), 1/10, -(1/10)⟩ := by
  have h := c6_visible_pixels_cap_and_inside ⟨1/10, -(1/10), 1/10, -(1/10)⟩ 14
    (by constructor <;> norm_num [MIN_LNG, MAX_LNG])
    (by constructor <;> norm_num [MIN_LNG, MAX_LNG])
    (by constructor <;> norm_num [MIN_LAT, MAX_LAT])
    (by constructor <;> norm_num [MIN_LAT, MAX_LAT])
  exact ⟨⟨by norm_num [MIN_LNG], by norm_num [MAX_LNG]⟩,
    ⟨by norm_num [MIN_LAT], by norm_num [MAX_LAT]⟩, h.1, h.2⟩

end Wplace

namespace Wplace

open PixelGrid

/-- isValidGridPosition with the two world-dimension constants evaluated,
so that concrete instances can be checked by kernel reduction. -/
lemma isValidGridPosition_eval (gx gy : ℤ) :
    isValidGridPosition gx gy =
      (decide (0 ≤ gx) && decide (gx < 3600000) && decide (0 ≤ gy) &&
        decide (gy < 1701022)) := by
  simp only [isValidGridPosition, maxGridX_eq, maxGridY_eq]

/-- The enumeration order the claim asserts, written from the words of the
claim: all cells of the viewport rectangle enumerated row-major (scan the
top row west to east, then the next row), truncated to the first
MAX_PIXELS_PER_REQUEST cells. -/
def rowMajorTruncatedEnum (bounds : Bounds) : List GridCoordinates :=
  let topLeft := geoToGrid bounds.north bounds.west
  let bottomRight := geoToGrid bounds.south bounds.east
  (((List.range (bottomRight.gridY - topLeft.gridY + 1).toNat).flatMap
      fun j : ℕ =>
        (List.range (bottomRight.gridX - topLeft.gridX + 1).toNat).map
          fun i : ℕ =>
            { gridX := topLeft.gridX + (i : ℤ)
              gridY := topLeft.gridY + (j : ℤ) : GridCoordinates })).take
    MAX_PIXELS_PER_REQUEST.toNat

/-- The truncated enumeration the code actually produces: the top-left
sub-rectangle with each side clamped to maxPixelsPerSide cells, column
major (x outer, y inner). -/
def colMajorCells (x0 y0 : ℤ) (nx ny : ℕ) : List GridCoordinates :=
  (List.range nx).flatMap fun i : ℕ =>
    (List.range ny).map fun j : ℕ =>
      { gridX := x0 + (i : ℤ), gridY := y0 + (j : ℤ) }

/-- A filterMap whose function guards a total map is the filtered map. -/
lemma filterMap_ite_eq_filter_map {α β : Type} (l : List α) (f : α → β)
    (p : β → Bool) :
    (l.filterMap fun a => if p (f a) then some (f a) else none) =
      (l.map f).filter p := by
  induction l with
  | nil => rfl
  | cons a l ih =>
      by_cases h : p (f a) <;>
        simp [List.filterMap_cons, List.filter_cons, h, ih]

/-- The viewport of the C7 counterexample: 65 cells wide and 64 cells tall,
4160 cells in total, which exceeds the 4096-cell cap. -/
def c7Bounds : Bounds := ⟨0, -(635/100000), 645/100000, 0⟩

/-- geoToGrid at the bottom-right corner of the C7 viewport, evaluated. -/
lemma geoToGrid_c7BR :
    geoToGrid c7Bounds.south c7Bounds.east = ⟨1800064, 850574⟩ := by
  show geoToGrid (-(635/100000)) (645/100000) = _
  norm_num [geoToGrid, MIN_LAT, MAX_LAT, MIN_LNG, MAX_LNG,
    PIXEL_SIZE_DEGREES]

/-- geoToGrid at the top-left corner of the C7 viewport, evaluated. -/
lemma geoToGrid_c7TL :
    geoToGrid c7Bounds.north c7Bounds.west = ⟨1800000, 850511⟩ := by
  show geoToGrid 0 0 = _
  exact geoToGrid_origin

set_option maxRecDepth 8000 in
/-- C7 counterexample: the C7 viewport exceeds the cap, yet the list the
code returns is not the first 4096 cells of the row-major enumeration: the
code clamps each side to 64 and iterates column-major, so already the
second element differs. -/
theorem c7_counterexample_not_row_major_prefix :
    MAX_PIXELS_PER_REQUEST <
      ((geoToGrid c7Bounds.south c7Bounds.east).gridX -
          (geoToGrid c7Bounds.north c7Bounds.west).gridX + 1) *
        ((geoToGrid c7Bounds.south c7Bounds.east).gridY -
          (geoToGrid c7Bounds.north c7Bounds.west).gridY + 1) ∧
    getVisiblePixels c7Bounds 14 ≠ rowMajorTruncatedEnum c7Bounds := by
  constructor
  · rw [geoToGrid_c7BR, geoToGrid_c7TL]
    decide
  · have hL : (getVisiblePixels c7Bounds 14).get? 1 =
        some ⟨1800000, 850512⟩ := by
      simp only [getVisiblePixels, geoToGrid_c7BR, geoToGrid_c7TL,
        isValidGridPosition_eval]
      rw [if_neg (by decide : ¬ (14 : ℤ) < ZOOM_MIN_VISIBLE)]
      decide
    have hR : (rowMajorTruncatedEnum c7Bounds).get? 1 =
        some ⟨1800001, 850511⟩ := by
      simp only [rowMajorTruncatedEnum, geoToGrid_c7BR, geoToGrid_c7TL]
      decide
    intro heq
    have h1 : (getVisiblePixels c7Bounds 14).get? 1 =
        (rowMajorTruncatedEnum c7Bounds).get? 1 := by rw [heq]
    rw [hL, hR] at h1
    exact absurd h1 (by decide)

/-- C7 (amended): above the zoom threshold, getVisiblePixels is exactly the
column-major enumeration (x outer, y inner) of the top-left sub-rectangle
of the viewport with each side independently clamped to
maxPixelsPerSide = 64 cells, filtered to valid world positions; truncation
is per side, not a prefix of the full row-major enumeration. -/
theorem c7_amended_truncation_col_major (b : Bounds) (zoom : ℤ)
    (hz : ¬ zoom < ZOOM_MIN_VISIBLE) :
    getVisiblePixels b zoom =
      (colMajorCells (geoToGrid b.north b.west).gridX
          (geoToGrid b.north b.west).gridY
          (min ((geoToGrid b.south b.east).gridX -
            (geoToGrid b.north b.west).gridX + 1) maxPixelsPerSide).toNat
          (min ((geoToGrid b.south b.east).gridY -
            (geoToGrid b.north b.west).gridY + 1) maxPixelsPerSide).toNat).filter
        fun g => isValidGridPosition g.gridX g.gridY := by
  simp only [getVisiblePixels, if_neg hz, colMajorCells, List.filter_flatMap]
  congr 1
  funext i
  exact filterMap_ite_eq_filter_map (List.range _)
    (fun j : ℕ => (⟨(geoToGrid b.north b.west).gridX + (i : ℤ),
      (geoToGrid b.north b.west).gridY + (j : ℤ)⟩ : GridCoordinates))
    (fun g : GridCoordinates => isValidGridPosition g.gridX g.gridY)

/-- Witness for the amended C7 at the degenerate origin viewport and
zoom 14. -/
theorem c7_amended_truncation_col_major_witness :
    ¬ (14 : ℤ) < ZOOM_MIN_VISIBLE ∧
    getVisiblePixels ⟨0, 0, 0, 0⟩ 14 =
      (colMajorCells (geoToGrid 0 0).gridX (geoToGrid 0 0).gridY
          (min ((geoToGrid 0 0).gridX - (geoToGrid 0 0).gridX + 1)
            maxPixelsPerSide).toNat
          (min ((geoToGrid 0 0).gridY - (geoToGrid 0 0).gridY + 1)
            maxPixelsPerSide).toNat).filter
        fun g => isValidGridPosition g.gridX g.gridY :=
  ⟨by decide, c7_amended_truncation_col_major ⟨0, 0, 0, 0⟩ 14 (by decide)⟩

end Wplace
